import Mathlib

/-!
# Verification of the markly enrichment pipeline

Shallow embedding of the bookmark-enrichment backend
(`backend/services/openai_service.py`, `backend/services/enrichment.py`,
`backend/services/content_extractor.py`, `backend/routes/bookmarks.py`)
together with proofs about the embedded operations.

Conventions:
* Python values appearing in JSON positions are modelled by `PyVal`.
* Python exceptions are modelled by `Except PyExc`; a function that cannot
  raise returns a plain value.
* Database rows are modelled as Lean structures; database update calls are
  modelled as pure state updates (the store itself is an external service
  and is assumed not to fail).
* Python string slicing `s[:n]`, `str.lower`, `str.replace(" ", "-")` are
  modelled character-exactly on ASCII data (`pyTake`, `pyLower`,
  `pyReplaceSpaceHyphen`).
-/

namespace Markly

/-- A Python exception: its type name and its message
(`f"{type(e).__name__}: {str(e)}"` is `toString`). -/
structure PyExc where
  ty : String
  msg : String
  deriving Repr, DecidableEq

def PyExc.format (e : PyExc) : String := e.ty ++ ": " ++ e.msg

/-- A JSON-like Python value (as produced by `json.loads`).
Numbers are modelled as integers; no claim depends on float arithmetic. -/
inductive PyVal where
  | none
  | bool (b : Bool)
  | int (n : Int)
  | str (s : String)
  | list (xs : List PyVal)
  | obj (kvs : List (String × PyVal))

/-- Python truthiness (`bool(v)`). -/
def PyVal.truthy : PyVal → Bool
  | .none => false
  | .bool b => b
  | .int n => n ≠ 0
  | .str s => s ≠ ""
  | .list xs => !xs.isEmpty
  | .obj kvs => !kvs.isEmpty

/-- Python `repr(v)` for JSON-like values. -/
def PyVal.pyRepr : PyVal → String
  | .none => "None"
  | .bool b => if b then "True" else "False"
  | .int n => toString n
  | .str s => "\x27" ++ s ++ "\x27"
  | .list xs => "[" ++ String.intercalate ", " (xs.attach.map fun v => v.1.pyRepr) ++ "]"
  | .obj kvs =>
      "\x7b" ++ String.intercalate ", "
        (kvs.attach.map fun kv => "\x27" ++ kv.1.1 ++ "\x27: " ++ kv.1.2.pyRepr) ++ "\x7d"
  decreasing_by
    · have h := List.sizeOf_lt_of_mem v.2
      simp only [PyVal.list.sizeOf_spec]
      omega
    · have h := List.sizeOf_lt_of_mem kv.2
      obtain ⟨⟨k, val⟩, hmem⟩ := kv
      simp only [PyVal.obj.sizeOf_spec, Prod.mk.sizeOf_spec] at *
      omega

/-- Python `str(v)`: identity on strings, `repr` otherwise (matches CPython
for `None`, booleans, integers, lists and dicts). -/
def PyVal.pyStr : PyVal → String
  | .str s => s
  | v => v.pyRepr

/-- Python `dict.get(key)` (returns `None`, i.e. `Option.none`, when the key
is absent). -/
def pyGet (kvs : List (String × PyVal)) (key : String) : Option PyVal :=
  (kvs.find? fun kv => kv.1 = key).map Prod.snd

/-- Python `dict.get(key, default)`. -/
def pyGetD (kvs : List (String × PyVal)) (key : String) (d : PyVal) : PyVal :=
  (pyGet kvs key).getD d

/-- Python `s[:n]`. -/
def pyTake (n : Nat) (s : String) : String := ⟨s.data.take n⟩

/-- Python `s.lower()` (ASCII). -/
def pyLower (s : String) : String := ⟨s.data.map Char.toLower⟩

/-- Python `s.replace(" ", "-")`: the pattern is a single character, so the
replacement is an exact character map. -/
def pyReplaceSpaceHyphen (s : String) : String :=
  ⟨s.data.map fun c => if c = ' ' then '-' else c⟩

/-- Python `s.strip()` (ASCII whitespace). -/
def pyTrim (s : String) : String :=
  ⟨((s.data.dropWhile Char.isWhitespace).reverse.dropWhile Char.isWhitespace).reverse⟩

/-- Split a character list at the first occurrence of `pat`, returning the
part before and the part after it. -/
def findSplit (pat : List Char) : List Char → Option (List Char × List Char)
  | [] => Option.none
  | c :: cs =>
    if pat.isPrefixOf (c :: cs) then some ([], (c :: cs).drop pat.length)
    else
      match findSplit pat cs with
      | some pp => some (c :: pp.1, pp.2)
      | Option.none => Option.none

/-- Remove every (non-overlapping, left-to-right) occurrence of `pat`,
with explicit fuel; models Python `s.replace(pat, "")` for non-empty
`pat` when the fuel is at least the length of the subject. -/
def removeAllAux (pat : List Char) : Nat → List Char → List Char
  | 0, s => s
  | _ + 1, [] => []
  | fuel + 1, c :: cs =>
    if pat.isPrefixOf (c :: cs) then removeAllAux pat fuel ((c :: cs).drop pat.length)
    else c :: removeAllAux pat fuel cs

/-- Python `s.replace(pat, "")` for a non-empty pattern. -/
def removeAll (pat : String) (s : String) : String :=
  ⟨removeAllAux pat.data s.data.length s.data⟩

/-- Python truthiness of an optional string (`None` and `""` are falsy). -/
def optTruthy : Option String → Bool
  | Option.none => false
  | some s => s ≠ ""

/-- Python `a or b` on optional strings. -/
def pyOr (a b : Option String) : Option String :=
  if optTruthy a then a else b

/-- Python `a or "d"` where the result is used as a string. -/
def pyOrStr (a : Option String) (d : String) : String :=
  match a with
  | some s => if s ≠ "" then s else d
  | Option.none => d

/-- Python iteration `for x in v`: lists yield elements, strings yield
one-character strings, dicts yield keys; other values raise `TypeError`. -/
def PyVal.pyIter : PyVal → Except PyExc (List PyVal)
  | .list xs => .ok xs
  | .str s => .ok (s.data.map fun c => .str ⟨[c]⟩)
  | .obj kvs => .ok (kvs.map fun kv => .str kv.1)
  | v => .error ⟨"TypeError", "argument of type " ++ (match v with
      | .none => "NoneType"
      | .bool _ => "bool"
      | .int _ => "int"
      | _ => "object") ++ " is not iterable"⟩

/-! ## Metadata synthesizer (`backend/services/openai_service.py`) -/

/-- Closed enumeration for `intent_type` (`enrich_bookmark`, line 142). -/
def intentTypes : List String := ["reference", "tutorial", "inspiration", "deep-dive", "tool"]

/-- Closed enumeration for `technical_level` (`enrich_bookmark`, line 147). -/
def technicalLevels : List String := ["beginner", "intermediate", "advanced", "general"]

/-- Closed enumeration for `content_type` (`enrich_bookmark`, line 152). -/
def contentTypes : List String := ["article", "documentation", "video", "tool", "paper", "other"]

/-- `AzureOpenAIService._validate_enum`: `if value and value.lower() in
allowed: return value.lower(); return default`. The argument is the result
of `result.get(...)` (`Option.none` when the key is absent, which Python
sees as `None`, falsy). A truthy non-string raises `AttributeError` at
`.lower()`. -/
def validate_enum (value : Option PyVal) (allowed : List String) (dflt : String) :
    Except PyExc String :=
  match value with
  | Option.none => .ok dflt
  | some v =>
    if v.truthy then
      match v with
      | .str s => if allowed.contains (pyLower s) then .ok (pyLower s) else .ok dflt
      | _ => .error ⟨"AttributeError", "object has no attribute lower"⟩
    else .ok dflt

/-- The validated metadata record returned by `enrich_bookmark`. -/
structure EnrichedRecord where
  clean_title : String
  ai_summary : String
  auto_tags : List String
  intent_type : String
  technical_level : String
  content_type : String
  key_quotes : List String
  deriving DecidableEq

/-- Result of `json.loads` on the chat-completion response text: a decode
error or a JSON value. -/
inductive ModelJson where
  | decodeError
  | value (v : PyVal)

/-- The defaults dict substituted on `json.JSONDecodeError`
(`enrich_bookmark`, lines 124-133): `title[:60] if title else "Untitled"`
and fixed values for the rest. -/
def defaultResult (title : Option String) : List (String × PyVal) :=
  [("clean_title", .str (match title with
      | some t => if t ≠ "" then pyTake 60 t else "Untitled"
      | Option.none => "Untitled")),
   ("ai_summary", .str "No summary available."),
   ("auto_tags", .list []),
   ("intent_type", .str "reference"),
   ("technical_level", .str "general"),
   ("content_type", .str "article"),
   ("key_quotes", .list [])]

/-- Per-tag normalization `str(tag).lower().replace(" ", "-")`
(`enrich_bookmark`, line 139). -/
def tagNormalize (tag : PyVal) : String := pyReplaceSpaceHyphen (pyLower tag.pyStr)

/-- The `validated = { ... }` dict construction of `enrich_bookmark`
(lines 136-156), for a parse result that is a JSON object `kvs`. The
fields are evaluated in source order, so iteration/enum errors surface
in that order. -/
def validateObj (title : Option String) (kvs : List (String × PyVal)) :
    Except PyExc EnrichedRecord := do
  let clean_title := pyTake 60 (pyGetD kvs "clean_title" (.str (pyOrStr title "Untitled"))).pyStr
  let ai_summary := pyTake 500 (pyGetD kvs "ai_summary" (.str "")).pyStr
  let tagItems ← (pyGetD kvs "auto_tags" (.list [])).pyIter
  let auto_tags := (tagItems.map tagNormalize).take 5
  let intent_type ← validate_enum (pyGet kvs "intent_type") intentTypes "reference"
  let technical_level ← validate_enum (pyGet kvs "technical_level") technicalLevels "general"
  let content_type ← validate_enum (pyGet kvs "content_type") contentTypes "article"
  let quoteItems ← (pyGetD kvs "key_quotes" (.list [])).pyIter
  let key_quotes := (quoteItems.map fun q => pyTake 300 q.pyStr).take 3
  .ok ⟨clean_title, ai_summary, auto_tags, intent_type, technical_level, content_type, key_quotes⟩

/-- The validation block of `enrich_bookmark` (lines 121-158): substitute
the defaults dict on decode error, then build the `validated` dict. A
parse result that is not a JSON object raises `AttributeError` at the
first `result.get`. -/
def enrich_validate (title : Option String) (parsed : ModelJson) :
    Except PyExc EnrichedRecord :=
  let result : PyVal := match parsed with
    | .decodeError => .obj (defaultResult title)
    | .value v => v
  match result with
  | .obj kvs => validateObj title kvs
  | _ => .error ⟨"AttributeError", "object has no attribute get"⟩

/-- Prompt input shaping in `enrich_bookmark` (lines 84-86):
`if content and len(content) > 10000: content = content[:10000] + "..."`. -/
def shape_content (content : Option String) : Option String :=
  match content with
  | some c => if c ≠ "" ∧ c.length > 10000 then some (pyTake 10000 c ++ "...") else some c
  | Option.none => Option.none

/-- Body of `AzureOpenAIService.enrich_bookmark`, parametric over the
chat-completion outcome (an external network call): shape the prompt
content, propagate a network error, parse and validate. -/
def enrich_bookmark (title content : Option String)
    (modelOutcome : Except PyExc ModelJson) : Except PyExc EnrichedRecord := do
  let _prompt_content := shape_content content
  let parsed ← modelOutcome
  enrich_validate title parsed

/-- The parameters accepted by `AzureOpenAIService.enrich_bookmark`
(`openai_service.py` line 69): `(cls, url, title, content, user_notes=None)`. -/
def enrich_bookmark_params : List String := ["url", "title", "content", "user_notes"]

/-- The keyword arguments used at both call sites of `enrich_bookmark`
(`enrichment.py` lines 50-56 and 129-135). -/
def enrich_call_kwargs : List String := ["url", "title", "content", "user_notes", "use_nano_model"]

/-- Python keyword-argument binding: a keyword not among the callee
parameters raises `TypeError` before the body runs. -/
def bindKwargs (fname : String) (params kwargs : List String) : Except PyExc Unit :=
  match kwargs.find? (fun k => !params.contains k) with
  | some k => .error
      ⟨"TypeError", fname ++ "() got an unexpected keyword argument " ++ "\x27" ++ k ++ "\x27"⟩
  | Option.none => .ok ()

/-- A call to `AzureOpenAIService.enrich_bookmark` as written at the two
call sites in `enrichment.py`: keyword binding first, then the body. -/
def enrich_bookmark_call (title content : Option String)
    (modelOutcome : Except PyExc ModelJson) : Except PyExc EnrichedRecord := do
  let _ ← bindKwargs "enrich_bookmark" enrich_bookmark_params enrich_call_kwargs
  enrich_bookmark title content modelOutcome

/-! ## Content extraction (`backend/services/content_extractor.py`) and
`analyze_link` (`backend/services/enrichment.py`) -/

/-- The result dict of `ContentExtractor.extract` (all fields nullable). -/
structure Extracted where
  title : Option String := Option.none
  description : Option String := Option.none
  content : Option String := Option.none
  favicon_url : Option String := Option.none
  thumbnail_url : Option String := Option.none
  domain : Option String := Option.none
  deriving DecidableEq

/-- `urlparse(url).netloc` for `scheme://netloc/...`-shaped URLs (models
the stdlib parser on the URL shapes the service accepts). -/
def url_netloc (url : String) : String :=
  match findSplit "://".data url.data with
  | some pp => ⟨pp.2.takeWhile fun c => c ≠ '/'⟩
  | Option.none => ""

/-- `urlparse(url).netloc.replace("www.", "")`, as computed in the
fallback paths and the import route. -/
def url_domain (url : String) : String := removeAll "www." (url_netloc url)

/-- The Google favicon-service URL built for a domain. -/
def favicon_for_domain (domain : String) : String :=
  "https://www.google.com/s2/favicons?domain=" ++ domain ++ "&sz=64"

/-- The URL-only fallback dict built in `analyze_link` when scraping raises
(`enrichment.py` lines 30-46). -/
def fallback_extracted (url : String) : Extracted :=
  let domain := url_domain url
  { title := some url
    content := Option.none
    description := Option.none
    favicon_url := if domain ≠ "" then some (favicon_for_domain domain) else Option.none
    thumbnail_url := Option.none
    domain := some domain }

/-- `analyze_link` (`enrichment.py` lines 18-58), parametric over the
extraction outcome and the chat-completion outcome: a scraping exception
is caught and replaced by the URL-only fallback; the `enrich_bookmark`
call (with its `use_nano_model` keyword) is not guarded, so its errors
propagate. -/
def analyze_link (extractOutcome : Except PyExc Extracted)
    (modelOutcome : Except PyExc ModelJson) (url : String) :
    Except PyExc (Extracted × EnrichedRecord) := do
  let extracted := match extractOutcome with
    | .ok e => e
    | .error _ => fallback_extracted url
  let enriched ← enrich_bookmark_call (some (pyOrStr extracted.title url))
    (pyOr extracted.content extracted.description) modelOutcome
  .ok (extracted, enriched)

/-- A strategy result dict as fed to the merge loop of
`ContentExtractor.extract`. `Option.none` stands for an absent key or a
`None` value; neither strategy emits a `domain` key. -/
structure StrategyResult where
  title : Option String := Option.none
  description : Option String := Option.none
  content : Option String := Option.none
  favicon_url : Option String := Option.none
  thumbnail_url : Option String := Option.none
  deriving DecidableEq

/-- One key of the merge loop (`extract`, lines 68-70):
`if val and (not result.get(key) or key == "content"): result[key] = val`. -/
def mergeField (isContent : Bool) (cur incoming : Option String) : Option String :=
  if optTruthy incoming && (!optTruthy cur || isContent) then incoming else cur

/-- One iteration of the merge loop: fold a completed strategy result into
the accumulated result dict. -/
def mergeStep (acc : Extracted) (r : StrategyResult) : Extracted :=
  { acc with
    title := mergeField false acc.title r.title
    description := mergeField false acc.description r.description
    content := mergeField true acc.content r.content
    favicon_url := mergeField false acc.favicon_url r.favicon_url
    thumbnail_url := mergeField false acc.thumbnail_url r.thumbnail_url }

/-- `ContentExtractor.extract` (lines 34-78), parametric over the list of
strategy results in completion order (`as_completed` yields futures in
the order they finish; a strategy that raised is excluded by the
`try/except` around `future.result()`). Ends with the favicon-service
fallback keyed by domain. -/
def extract (url : String) (resultsInCompletionOrder : List StrategyResult) : Extracted :=
  let init : Extracted := { domain := some (url_domain url) }
  let merged := resultsInCompletionOrder.foldl mergeStep init
  if !optTruthy merged.favicon_url && optTruthy merged.domain then
    { merged with favicon_url := some (favicon_for_domain (merged.domain.getD "")) }
  else merged

/-! ## Enrichment orchestrator (`backend/services/enrichment.py`) -/

/-- A `bookmarks` row (the columns the orchestrator reads or writes). -/
structure Bookmark where
  url : String
  user_description : Option String := Option.none
  raw_notes : Option String := Option.none
  original_title : Option String := Option.none
  domain : Option String := Option.none
  favicon_url : Option String := Option.none
  thumbnail_url : Option String := Option.none
  content_extract : Option String := Option.none
  clean_title : Option String := Option.none
  ai_summary : Option String := Option.none
  auto_tags : Option (List String) := Option.none
  key_quotes : Option (List String) := Option.none
  intent_type : Option String := Option.none
  technical_level : Option String := Option.none
  content_type : Option String := Option.none
  enrichment_status : String := "pending"
  enrichment_error : Option String := Option.none
  embedding : Option (List Int) := Option.none
  deriving DecidableEq

/-- Outcomes of the external calls made during one `_enrich_bookmark` run.
The two cancellation booleans are the values observed by the two
`_is_job_canceled` polls (the job status may change between them). -/
structure EnrichOracle where
  cancelAtStart : Bool := false
  cancelBeforeLLM : Bool := false
  extractOutcome : Except PyExc Extracted := .error ⟨"Exception", "network"⟩
  modelOutcome : Except PyExc ModelJson := .error ⟨"Exception", "network"⟩
  embedOutcome : Except PyExc (List Int) := .error ⟨"Exception", "network"⟩

/-- The observable effects of one `_enrich_bookmark` run: the final
`bookmarks` row, the `(status, error)` writes issued to the import item
row, and the `(completed, failed)` flags passed to
`_increment_import_job` (if reached). -/
structure EnrichEffects where
  bookmark : Option Bookmark
  itemWrites : List (String × Option String) := []
  jobIncrement : Option (Bool × Bool) := Option.none
  deriving DecidableEq

/-- The advisory message written to `enrichment_error` on a completed
bookmark when no content was scraped (`_enrich_bookmark`, line 171). -/
def scrapeAdvisory : String :=
  "Scraping failed: content could not be extracted. Please review AI guessed metadata."

/-- The embedding text built after the completed write
(`_enrich_bookmark`, lines 182-187): space-join of title, summary,
joined tags and raw notes, with falsy parts dropped by `filter(None, _)`. -/
def embedding_text (enriched : EnrichedRecord) (raw_notes : Option String) : String :=
  let parts : List String := [enriched.clean_title, enriched.ai_summary,
    String.intercalate " " enriched.auto_tags, raw_notes.getD ""]
  String.intercalate " " (parts.filter fun p => p ≠ "")

/-- The `update_data` write of the success path (`_enrich_bookmark`,
lines 157-175), applied to the stored row. -/
def successUpdate (b : Bookmark) (extracted : Extracted) (enriched : EnrichedRecord) :
    Bookmark :=
  let was_scrape_successful := optTruthy extracted.content
  { b with
    domain := pyOr extracted.domain b.domain
    original_title := pyOr extracted.title b.original_title
    favicon_url := extracted.favicon_url
    thumbnail_url := extracted.thumbnail_url
    content_extract := some (pyTake 50000 (pyOrStr extracted.content ""))
    clean_title := some enriched.clean_title
    ai_summary := some enriched.ai_summary
    auto_tags := some enriched.auto_tags
    key_quotes := some enriched.key_quotes
    intent_type := some enriched.intent_type
    technical_level := some enriched.technical_level
    content_type := some enriched.content_type
    enrichment_status := "completed"
    enrichment_error := if was_scrape_successful then Option.none else some scrapeAdvisory }

/-- The `except` handler of `_enrich_bookmark` (lines 207-224): write
`failed` with the error formatted and truncated to 500 chars, mark the
item failed (error truncated to 200 chars), increment the failed
counter of the job. Nothing propagates further. -/
def enrichExceptHandler (dbBookmark : Option Bookmark) (hasJob hasItem : Bool)
    (itemWritesSoFar : List (String × Option String)) (e : PyExc) : EnrichEffects :=
  { bookmark := dbBookmark.map fun b =>
      { b with enrichment_status := "failed",
               enrichment_error := some (pyTake 500 e.format) }
    itemWrites := itemWritesSoFar ++
      (if hasItem then [("failed", some (pyTake 200 e.format))] else [])
    jobIncrement := if hasJob then some (false, true) else Option.none }

/-- `_enrich_bookmark` (`enrichment.py` lines 75-224), parametric over the
stored row and the external-call outcomes. Database reads/writes are
modelled as pure state; the structure of the `try/except` blocks follows
the source: the outer handler catches everything raised in the body, so
the function is total (the worker thread never crashes). -/
def enrich_bookmark_job (bk0 : Option Bookmark) (hasJob hasItem : Bool)
    (o : EnrichOracle) : EnrichEffects :=
  -- checkpoint 1: `if import_job_id and _is_job_canceled(import_job_id)`
  if hasJob && o.cancelAtStart then
    { bookmark := bk0
      itemWrites := if hasItem then [("canceled", some "Job canceled")] else []
      jobIncrement := Option.none }
  else
    -- `update({"enrichment_status": "processing"})`
    let bk1 := bk0.map fun b => { b with enrichment_status := "processing" }
    let itemW0 : List (String × Option String) :=
      if hasItem && hasJob then [("processing", Option.none)] else []
    -- fetch; a missing row raises and lands in the handler
    match bk1 with
    | Option.none =>
        enrichExceptHandler bk1 hasJob hasItem itemW0 ⟨"ValueError", "Bookmark not found"⟩
    | some b =>
      if optTruthy b.user_description then
        -- user-supplied description: skip scraping, call the synthesizer directly
        let extracted : Extracted :=
          { title := b.original_title
            content := b.user_description
            description := b.user_description
            favicon_url := b.favicon_url
            thumbnail_url := Option.none
            domain := b.domain }
        match enrich_bookmark_call (pyOr extracted.title b.original_title)
            (pyOr extracted.content extracted.description) o.modelOutcome with
        | .error e => enrichExceptHandler bk1 hasJob hasItem itemW0 e
        | .ok enriched => enrichSuccess b extracted enriched hasJob hasItem itemW0 o
      else
        -- checkpoint 2: before the expensive LLM call
        if hasJob && o.cancelBeforeLLM then
          let failedRow := { b with enrichment_status := "failed",
                                    enrichment_error := some "Job canceled" }
          { bookmark := some failedRow
            itemWrites := itemW0 ++ (if hasItem then [("canceled", some "Job canceled")] else [])
            jobIncrement := Option.none }
        else
          match analyze_link o.extractOutcome o.modelOutcome b.url with
          | .error e => enrichExceptHandler bk1 hasJob hasItem itemW0 e
          | .ok (extracted, enriched) => enrichSuccess b extracted enriched hasJob hasItem itemW0 o
where
  /-- Steps 3-4 and the per-item bookkeeping of the success path
  (lines 154-205): the completed write, then the isolated embedding
  attempt, then item/job bookkeeping. -/
  enrichSuccess (b : Bookmark) (extracted : Extracted) (enriched : EnrichedRecord)
      (hasJob hasItem : Bool) (itemW0 : List (String × Option String))
      (o : EnrichOracle) : EnrichEffects :=
    let written := successUpdate b extracted enriched
    let text := embedding_text enriched b.raw_notes
    let afterEmbed :=
      if pyTrim text ≠ "" then
        match o.embedOutcome with
        | .ok emb => { written with embedding := some emb }
        | .error _ => written   -- logged and swallowed, never reverts `completed`
      else written
    { bookmark := some afterEmbed
      itemWrites := itemW0 ++ (if hasItem then [("completed", Option.none)] else [])
      jobIncrement := if hasJob then some (true, false) else Option.none }

/-- `retry_failed_enrichment` (`enrichment.py` lines 227-238): reset the
status machine and enqueue a fresh run; returns the updated row and the
fact that a job was submitted. -/
def retry_failed_enrichment (b : Bookmark) : Bookmark × Bool :=
  ({ b with enrichment_status := "pending", enrichment_error := Option.none }, true)

/-- Response of the `retry_enrichment` route. -/
inductive RetryResponse where
  | notFound
  | started (b : Bookmark) (enqueued : Bool)
  deriving DecidableEq

/-- The `/<bookmark_id>/retry` route (`routes/bookmarks.py` lines 300-320):
fetches `enrichment_status` but never branches on it; any existing
bookmark is reset and re-enqueued. -/
def retry_enrichment (lookup : Option Bookmark) : RetryResponse :=
  match lookup with
  | Option.none => .notFound
  | some b =>
    let reset := retry_failed_enrichment b
    .started reset.1 reset.2

/-! ## Import jobs (`backend/routes/bookmarks.py`, `enrichment.py`) -/

/-- An `import_jobs` row (counter columns are nullable in the store). -/
structure ImportJob where
  status : String
  total : Nat := 0
  imported_count : Nat := 0
  skipped_count : Nat := 0
  enrich_completed : Option Nat := Option.none
  enrich_failed : Option Nat := Option.none
  enqueue_enrich_count : Option Nat := Option.none
  last_error : Option String := Option.none
  deriving DecidableEq

/-- An `import_job_items` row. -/
structure ItemRow where
  id : Nat
  job_id : Nat
  url : String
  title : String
  tags : List String
  bookmark_id : Nat
  status : String
  error : Option String := Option.none
  deriving DecidableEq

/-- `_increment_import_job` (`enrichment.py` lines 241-272): re-read the
counters (`.get(_, 0) or 0` maps a null column to 0), bump them, and
write them back together with a status that is unconditionally
recomputed as `"processing"`, or `"completed"` once every enqueued item
is terminal. A missing job row is a no-op. -/
def increment_import_job (job : Option ImportJob) (completed failed : Bool) :
    Option ImportJob :=
  match job with
  | Option.none => Option.none
  | some j =>
    let current_completed := j.enrich_completed.getD 0
    let current_failed := j.enrich_failed.getD 0
    let enqueue_count := j.enqueue_enrich_count.getD 0
    let current_completed := if completed then current_completed + 1 else current_completed
    let current_failed := if failed then current_failed + 1 else current_failed
    let new_status :=
      if enqueue_count > 0 ∧ current_completed + current_failed ≥ enqueue_count then
        "completed"
      else "processing"
    some { j with enrich_completed := some current_completed,
                  enrich_failed := some current_failed,
                  status := new_status }

/-- The `/import/<job_id>/stop` route (`routes/bookmarks.py` lines
571-581): set the job status to `canceled`, and flip the still
`pending` items of the job to `canceled`. -/
def stop_import_job (job : ImportJob) (items : List ItemRow) :
    ImportJob × List ItemRow :=
  ({ job with status := "canceled", last_error := some "Manually canceled" },
   items.map fun it =>
     if it.status = "pending" then
       { it with status := "canceled", error := some "Canceled" }
     else it)

/-! ## Bulk import (`backend/routes/bookmarks.py` lines 381-526) -/

/-- One element of the `bookmarks` array of the request (already a dict; the
route skips non-dict elements by treating their URL as empty). -/
structure ImportCandidate where
  url : Option String := Option.none
  title : Option String := Option.none
  tags : List PyVal := []
  enrich : Bool := false

/-- A candidate after the normalization loop (lines 393-413). -/
structure NormItem where
  url : String
  title : String
  tags : List String
  enrich : Bool
  deriving DecidableEq

/-- Per-tag normalization `str(t).strip().lower().replace(" ", "-")`
(line 406). -/
def normalize_tag (t : PyVal) : String := pyReplaceSpaceHyphen (pyLower (pyTrim t.pyStr))

/-- The normalization loop (lines 393-413): trim the URL, drop empty or
invalid ones (`validators.url` is the external validity check), default
the title to the URL, normalize tags dropping blank ones. -/
def normalize_items (validUrl : String → Bool) (items : List ImportCandidate) :
    List NormItem :=
  items.filterMap fun raw =>
    let url := pyTrim (raw.url.getD "")
    if url = "" then Option.none
    else if !validUrl url then Option.none
    else some
      { url := url
        title := pyTrim (pyOrStr raw.title url)
        tags := (raw.tags.filter fun t => pyTrim t.pyStr ≠ "").map normalize_tag
        enrich := raw.enrich }

/-- The local helper `chunked(seq, size)` (lines 420-422), written with
explicit fuel; for a positive size it yields the `size`-sized slices in
order. -/
def chunkedAux {α : Type} (size : Nat) : Nat → List α → List (List α)
  | 0, _ => []
  | _ + 1, [] => []
  | fuel + 1, xs => xs.take size :: chunkedAux size fuel (xs.drop size)

/-- `chunked(seq, size)` for the sizes used by the route (100 and 200). -/
def chunked {α : Type} (size : Nat) (seq : List α) : List (List α) :=
  chunkedAux size seq.length seq

/-- The bookmark record built for a surviving candidate (lines 452-470):
placeholder titles, derived domain and favicon, status `pending` when
enrichment is requested and `completed` when it is declined. The record
dict carries no `ai_summary` key, so the stored column keeps its null
default. -/
structure InsertPayload where
  url : String
  domain : String
  original_title : String
  clean_title : String
  favicon_url : Option String
  auto_tags : List String
  ai_summary : Option String
  enrichment_status : String
  import_job_id : Option Nat
  deriving DecidableEq

/-- A `bookmarks` row created by the bulk insert (the payload plus the
store-assigned id). -/
structure InsertedRow extends InsertPayload where
  id : Nat
  deriving DecidableEq

/-- Build the insert payload for one surviving candidate (lines 452-470). -/
def mkImportRecord (job_id : Nat) (item : NormItem) : InsertPayload :=
  let domain := url_domain item.url
  { url := item.url
    domain := domain
    original_title := pyOrStr (some item.title) item.url
    clean_title := pyOrStr (some item.title) item.url
    favicon_url := if domain ≠ "" then some (favicon_for_domain domain) else Option.none
    auto_tags := item.tags
    ai_summary := Option.none
    enrichment_status := if item.enrich then "pending" else "completed"
    import_job_id := if item.enrich then some job_id else Option.none }

/-- State threaded through the 200-row bookmark-insert loop (lines
477-505). `to_enqueue`, `item_ids_by_url` and `to_enqueue_ids` model the
Python locals first assigned inside the loop body: they are `Option.none`
until the body has run at least once, and reading them then is a
`NameError`. `itemRows` is the accumulated content of the
`import_job_items` table. -/
structure InsertLoopState where
  inserted : List InsertedRow := []
  nextBookmarkId : Nat := 1
  nextItemId : Nat := 1
  itemRows : List ItemRow := []
  to_enqueue : Option (List InsertedRow) := Option.none
  item_ids_by_url : Option (List (String × Nat)) := Option.none
  to_enqueue_ids : Option (List Nat) := Option.none

/-- Overwriting assignment `d[k] = v` for the `item_ids_by_url` dict. -/
def dictSet (m : List (String × Nat)) (k : String) (v : Nat) : List (String × Nat) :=
  (k, v) :: m.filter fun kv => kv.1 ≠ k

/-- One iteration of the bookmark-insert loop (lines 477-505). The block
from `to_enqueue = ...` through `to_enqueue_ids = ...` is indented inside
the loop in the source, so it runs once per 200-row chunk, each time over
the whole `inserted` list accumulated so far, re-inserting
`import_job_items` rows for rows already handled by earlier iterations. -/
def insert_chunk_step (job_id : Nat) (enrich_candidates : List String)
    (st : InsertLoopState) (chunk : List InsertPayload) : InsertLoopState :=
  let newRows : List InsertedRow :=
    (chunk.enum).map fun pi => { toInsertPayload := pi.2, id := st.nextBookmarkId + pi.1 }
  let inserted := st.inserted ++ newRows
  -- lines 482-505, inside the loop body:
  let to_enqueue := inserted.filter fun row => enrich_candidates.contains row.url
  let items_payload : List ItemRow := (to_enqueue.enum).map fun ri =>
    { id := st.nextItemId + ri.1
      job_id := job_id
      url := ri.2.url
      title := pyOrStr (pyOr (some ri.2.clean_title) (some ri.2.original_title)) ri.2.url
      tags := ri.2.auto_tags
      bookmark_id := ri.2.id
      status := "pending" }
  -- the inner 200-row chunking of the item insert assigns ids in order and
  -- performs `item_ids_by_url[payload.url] = created.id` in order
  let item_ids_by_url :=
    (chunked 200 items_payload).foldl
      (fun m chk => chk.foldl (fun m it => dictSet m it.url it.id) m) []
  { inserted := inserted
    nextBookmarkId := st.nextBookmarkId + newRows.length
    nextItemId := st.nextItemId + items_payload.length
    itemRows := st.itemRows ++ items_payload
    to_enqueue := some to_enqueue
    item_ids_by_url := some item_ids_by_url
    to_enqueue_ids := some (to_enqueue.map fun row => row.id) }

/-- Summary dict returned by a successful import (lines 520-526). -/
structure ImportSummary where
  job_id : Nat
  imported : Nat
  skipped : Nat
  enrichment_queued : Nat
  deriving DecidableEq

/-- The observable outcome of a successful import request. -/
structure ImportOutcome where
  summary : ImportSummary
  insertedRows : List InsertedRow
  itemRows : List ItemRow
  jobStatus : String
  enqueued : List Nat
  deriving DecidableEq

/-- Response of the import route: 400 on an empty normalized batch, 500
when the handler raises (Flask converts an uncaught exception), 202 with
the summary otherwise. -/
inductive ImportResponse where
  | badRequest (msg : String)
  | internalError (msg : String)
  | accepted (outcome : ImportOutcome)

/-- `import_bookmarks` (`routes/bookmarks.py` lines 381-526), parametric
over the URL validator and the set of URLs already stored for the owner.
When every candidate is a duplicate the bookmark-insert loop body never
runs and line 511 reads the unassigned `to_enqueue_ids`: `NameError`. -/
def import_bookmarks (validUrl : String → Bool) (db : List String)
    (raws : List ImportCandidate) : ImportResponse :=
  let normalized := normalize_items validUrl raws
  if normalized.isEmpty then .badRequest "No valid bookmarks provided"
  else
    let job_id : Nat := 0
    -- deduplicate against existing URLs in 100-url chunks (lines 437-441)
    let urls := normalized.map fun item => item.url
    let existing_urls := (chunked 100 urls).foldl
      (fun acc chunk => acc ++ chunk.filter fun u => db.contains u) []
    -- build `to_insert` / `enrich_candidates` (lines 443-474)
    let to_insert := normalized.filterMap fun item =>
      if existing_urls.contains item.url then Option.none
      else some (mkImportRecord job_id item)
    let enrich_candidates := normalized.filterMap fun item =>
      if existing_urls.contains item.url then Option.none
      else if item.enrich then some item.url else Option.none
    -- the 200-row insert loop with the mis-indented block (lines 476-505)
    let st := (chunked 200 to_insert).foldl
      (insert_chunk_step job_id enrich_candidates) {}
    -- line 511 reads `to_enqueue_ids` while building the counter update
    match st.to_enqueue_ids, st.to_enqueue, st.item_ids_by_url with
    | some to_enqueue_ids, some to_enqueue, some _ =>
      let jobStatus := if to_enqueue_ids.isEmpty then "completed" else "processing"
      .accepted
        { summary :=
            { job_id := job_id
              imported := st.inserted.length
              skipped := normalized.length - st.inserted.length
              enrichment_queued := to_enqueue_ids.length }
          insertedRows := st.inserted
          itemRows := st.itemRows
          jobStatus := jobStatus
          enqueued := to_enqueue.map fun row => row.id }
    | _, _, _ =>
      .internalError "NameError: name to_enqueue_ids is not defined"

/-! ## Predicates and concrete fixtures used by the statements -/

/-- Whether Python iteration over the value succeeds. -/
def PyVal.iterOk (v : PyVal) : Bool :=
  match v.pyIter with
  | .ok _ => true
  | .error _ => false

/-- Whether `_validate_enum` can process the value without raising: absent,
falsy, or a string. -/
def enumSafe (v : Option PyVal) : Bool :=
  match v with
  | Option.none => true
  | some w => !w.truthy || (match w with | .str _ => true | _ => false)

/-- The class of parse results on which the validation block runs to
completion: a decode error (replaced by the defaults dict), or a JSON
object whose enum fields are absent/falsy/strings and whose
`auto_tags`/`key_quotes` fields are iterable when present. -/
def wellShaped : ModelJson → Bool
  | .decodeError => true
  | .value (.obj kvs) =>
      enumSafe (pyGet kvs "intent_type") && enumSafe (pyGet kvs "technical_level") &&
      enumSafe (pyGet kvs "content_type") &&
      (pyGetD kvs "auto_tags" (.list [])).iterOk &&
      (pyGetD kvs "key_quotes" (.list [])).iterOk
  | .value _ => false

/-- The bounds the validated record satisfies: field truncations, tag
count/shape (no spaces, no ASCII uppercase), closed enum membership, and
quote count/length caps. -/
def RecordBounded (r : EnrichedRecord) : Prop :=
  r.clean_title.length ≤ 60 ∧
  r.ai_summary.length ≤ 500 ∧
  r.auto_tags.length ≤ 5 ∧
  (∀ t ∈ r.auto_tags, ∀ c ∈ t.data, c ≠ ' ' ∧ c.isUpper = false) ∧
  r.intent_type ∈ intentTypes ∧
  r.technical_level ∈ technicalLevels ∧
  r.content_type ∈ contentTypes ∧
  r.key_quotes.length ≤ 3 ∧
  ∀ q ∈ r.key_quotes, q.length ≤ 300

/-- The invariant claimed for failed rows: a row whose status is `failed`
carries a non-null `enrichment_error` of at most 500 characters. -/
def errInvB : Option Bookmark → Bool
  | Option.none => true
  | some b =>
      b.enrichment_status ≠ "failed" ||
      (match b.enrichment_error with
       | some e => e.length ≤ 500
       | Option.none => false)

/-- Length of the validated summary of a successful validation (0 on
error); used to exhibit concrete values in statements. -/
def enrichOkSummaryLength : Except PyExc EnrichedRecord → Nat
  | .ok r => r.ai_summary.length
  | .error _ => 0

/-- A 300-character model summary. -/
def longSummary : String := ⟨List.replicate 300 'x'⟩

/-- A 12,000-character content string whose final 2,000 characters are
all `b`. -/
def tailContent : String := ⟨List.replicate 10000 'a' ++ List.replicate 2000 'b'⟩

/-- The record produced by validating a response that failed JSON
decoding, for a bookmark titled `T`. -/
def defaultValidated : EnrichedRecord :=
  { clean_title := "T", ai_summary := "No summary available.", auto_tags := []
    intent_type := "reference", technical_level := "general", content_type := "article"
    key_quotes := [] }

/-- Status and summary column of every row inserted by an import request. -/
def importedStatusSummary : ImportResponse → List (String × Option String)
  | .accepted out => out.insertedRows.map fun r => (r.enrichment_status, r.ai_summary)
  | _ => []

/-- Number of `import_job_items` rows created by an import request. -/
def importItemRowCount : ImportResponse → Nat
  | .accepted out => out.itemRows.length
  | _ => 0

/-- 201 fresh candidates, all selected for enrichment: one more than the
200-row insert chunk size. -/
def c6Candidates : List ImportCandidate :=
  (List.range 201).map fun i => { url := some ("u" ++ toString i), enrich := true }

/-- The summary dict of an accepted import response. -/
def importSummaryOf : ImportResponse → Option ImportSummary
  | .accepted out => some out.summary
  | _ => Option.none

/-! # Theorems -/

/-! ## Helper lemmas -/

/-- `Char.toLower` never yields an ASCII uppercase letter. -/
theorem char_toLower_not_upper (c : Char) : (Char.toLower c).isUpper = false := by
  unfold Char.toLower
  by_cases h : c.toNat ≥ 65 ∧ c.toNat ≤ 90
  · simp only [if_pos h]
    obtain ⟨h1, h2⟩ := h
    generalize hgen : c.toNat = n at h1 h2
    interval_cases n <;> decide
  · simp only [if_neg h]
    rw [Char.isUpper]
    by_contra hc
    rw [Bool.not_eq_false, Bool.and_eq_true, decide_eq_true_eq, decide_eq_true_eq] at hc
    obtain ⟨hc1, hc2⟩ := hc
    exact h ⟨UInt32.le_toNat_of_le (by decide) hc1, UInt32.toNat_le_of_le (by decide) hc2⟩

/-- Python slicing `s[:n]` yields at most `n` characters. -/
theorem pyTake_length (n : Nat) (s : String) : (pyTake n s).length ≤ n := by
  show (s.data.take n).length ≤ n
  exact s.data.length_take_le n

/-- Every character of a normalized tag is space-free and not an ASCII
uppercase letter. -/
theorem tagNormalize_chars (t : PyVal) :
    ∀ c ∈ (tagNormalize t).data, c ≠ ' ' ∧ c.isUpper = false := by
  intro c hc
  unfold tagNormalize pyReplaceSpaceHyphen pyLower at hc
  simp only [List.mem_map] at hc
  obtain ⟨d, hd, rfl⟩ := hc
  obtain ⟨e, _, rfl⟩ := hd
  by_cases hsp : Char.toLower e = ' '
  · simp only [hsp, if_pos rfl]
    exact ⟨by decide, by decide⟩
  · simp only [if_neg hsp]
    exact ⟨hsp, char_toLower_not_upper e⟩

/-- Inversion for `_validate_enum`: a successful result is the default or
a member of the allowed list. -/
theorem validate_enum_ok_cases (v : Option PyVal) (allowed : List String)
    (dflt out : String) (h : validate_enum v allowed dflt = .ok out) :
    out = dflt ∨ out ∈ allowed := by
  cases v with
  | none => exact Or.inl (Except.ok.inj h).symm
  | some w =>
    have hred : validate_enum (some w) allowed dflt =
        if w.truthy = true then
          (match w with
           | PyVal.str s =>
              if allowed.contains (pyLower s) = true then Except.ok (pyLower s)
              else Except.ok dflt
           | _ => Except.error ⟨"AttributeError", "object has no attribute lower"⟩)
        else Except.ok dflt := rfl
    rw [hred] at h
    by_cases hw : w.truthy = true
    · rw [if_pos hw] at h
      cases w with
      | str s =>
        have h2 : (if allowed.contains (pyLower s) = true then Except.ok (ε := PyExc) (pyLower s)
            else Except.ok dflt) = Except.ok out := h
        by_cases hc : allowed.contains (pyLower s) = true
        · rw [if_pos hc] at h2
          exact Or.inr (by rw [← Except.ok.inj h2]; exact List.mem_of_elem_eq_true hc)
        · rw [if_neg hc] at h2
          exact Or.inl (Except.ok.inj h2).symm
      | none => exact Except.noConfusion h
      | bool b => exact Except.noConfusion h
      | int n => exact Except.noConfusion h
      | list xs => exact Except.noConfusion h
      | obj kvs => exact Except.noConfusion h
    · rw [if_neg hw] at h
      exact Or.inl (Except.ok.inj h).symm

/-- `_validate_enum` succeeds on every safe value. -/
theorem validate_enum_safe_ok (v : Option PyVal) (allowed : List String)
    (dflt : String) (hv : enumSafe v = true) :
    ∃ out, validate_enum v allowed dflt = .ok out := by
  cases v with
  | none => exact ⟨dflt, rfl⟩
  | some w =>
    have hred : validate_enum (some w) allowed dflt =
        if w.truthy = true then
          (match w with
           | PyVal.str s =>
              if allowed.contains (pyLower s) = true then Except.ok (pyLower s)
              else Except.ok dflt
           | _ => Except.error ⟨"AttributeError", "object has no attribute lower"⟩)
        else Except.ok dflt := rfl
    rw [hred]
    by_cases hw : w.truthy = true
    · rw [if_pos hw]
      have hstr : ∃ s, w = PyVal.str s := by
        cases w <;> simp_all [enumSafe, PyVal.truthy]
      obtain ⟨s, rfl⟩ := hstr
      by_cases hc : allowed.contains (pyLower s) = true
      · exact ⟨pyLower s, by show (if allowed.contains (pyLower s) = true then
          Except.ok (ε := PyExc) (pyLower s) else Except.ok dflt) = _; rw [if_pos hc]⟩
      · exact ⟨dflt, by show (if allowed.contains (pyLower s) = true then
          Except.ok (ε := PyExc) (pyLower s) else Except.ok dflt) = _; rw [if_neg hc]⟩
    · rw [if_neg hw]
      exact ⟨dflt, rfl⟩

/-! ## C1: the nano-variant call is rejected, not accepted -/

/-- C1: the claim says an enrichment request that asks for the cheap
("nano") model variant is accepted by the synthesizer and falls back to
the standard deployment. The code rejects it: both call sites pass the
keyword `use_nano_model`, which `AzureOpenAIService.enrich_bookmark`
does not declare, so every `analyze_link` call raises `TypeError` before
any model is consulted, for every extraction and model outcome. -/
theorem analyze_link_nano_kwarg_type_error (eo : Except PyExc Extracted)
    (mo : Except PyExc ModelJson) (url : String) :
    analyze_link eo mo url = .error ⟨"TypeError",
      "enrich_bookmark() got an unexpected keyword argument \x27use_nano_model\x27"⟩ := by
  cases eo <;> rfl

/-! ## C5: import summary, and the all-duplicates crash -/

/-- C5: the claimed contract holds when at least one candidate is new
(3 candidates with 1 duplicate yield `skipped=1`, `imported=2`), but the
claim fails on an all-duplicate batch: the insert loop body never runs,
so line 511 reads the never-assigned local `to_enqueue_ids` and the
route raises `NameError` instead of returning a summary. -/
theorem import_all_duplicates_raises_name_error :
    import_bookmarks (fun _ => true) ["https://a.com/x"]
      [{ url := some "https://a.com/x", enrich := true }] =
      .internalError "NameError: name to_enqueue_ids is not defined" ∧
    importSummaryOf (import_bookmarks (fun _ => true) ["https://a.com/x"]
      [{ url := some "https://a.com/x", enrich := true },
       { url := some "https://b.com/y", enrich := true },
       { url := some "https://c.com/z", enrich := true }]) =
      some { job_id := 0, imported := 2, skipped := 1, enrichment_queued := 2 } :=
  ⟨rfl, rfl⟩

/-! ## C6: duplicate ImportJobItem rows past the first insert chunk -/

set_option maxRecDepth 100000 in
/-- C6: one `ImportJobItem` row per enrichment candidate is claimed for
every batch size. Refuted past one 200-row insert chunk: for 201 fresh
candidates all selected for enrichment, the mis-indented block re-runs
per chunk and creates 401 item rows instead of 201. -/
theorem import_duplicate_item_rows :
    c6Candidates.length = 201 ∧
    importItemRowCount (import_bookmarks (fun _ => true) [] c6Candidates) = 401 :=
  ⟨rfl, rfl⟩

/-! ## C7: a canceled job is overwritten by the in-flight increment -/

/-- C7: the claim says a canceled job never later becomes `processing` or
`completed`. Refuted: `_increment_import_job` recomputes the status
unconditionally, so the increment issued by an item that was mid-synthesis
at cancellation rewrites a canceled job to `processing` (counters not yet
exhausted) or `completed` (last item). -/
theorem canceled_job_status_overwritten :
    increment_import_job (some { status := "canceled", enrich_completed := some 0, enrich_failed := some 0, enqueue_enrich_count := some 2 }) true false = some { status := "processing", enrich_completed := some 1, enrich_failed := some 0, enqueue_enrich_count := some 2 } ∧
    increment_import_job (some { status := "canceled", enrich_completed := some 1, enrich_failed := some 0, enqueue_enrich_count := some 2 }) true false = some { status := "completed", enrich_completed := some 2, enrich_failed := some 0, enqueue_enrich_count := some 2 } :=
  ⟨rfl, rfl⟩

/-! ## C9: prompt-content shaping -/

/-- C9 (counterexample): the claim says content over 4,000 characters is
reshaped keeping the first and last 2,000 characters. On a 12,000-char
content whose last 2,000 characters are all `b`, the code keeps the first
10,000 characters plus an ellipsis, and the result contains no `b` at
all: the tail is dropped, and the thresholds are 10,000/10,000, not
4,000/2,000. -/
theorem shape_content_drops_tail_counterexample :
    shape_content (some tailContent) = some (pyTake 10000 tailContent ++ "...") ∧
    tailContent.length = 12000 ∧
    (pyTake 10000 tailContent ++ "...").data.count 'b' = 0 ∧
    tailContent.data.count 'b' = 2000 := by
  have hdata : tailContent.data = List.replicate 10000 'a' ++ List.replicate 2000 'b' := rfl
  have hlen : tailContent.length = 12000 := by
    show tailContent.data.length = 12000
    rw [hdata, List.length_append, List.length_replicate, List.length_replicate]
  have hne : tailContent ≠ "" := by
    intro he
    rw [he] at hlen
    exact absurd hlen (by decide)
  have htake : (pyTake 10000 tailContent).data = List.replicate 10000 'a' := by
    show (tailContent.data.take 10000) = List.replicate 10000 'a'
    rw [hdata]
    exact List.take_left' (List.length_replicate _ _)
  refine ⟨?_, hlen, ?_, ?_⟩
  · show (if tailContent ≠ "" ∧ tailContent.length > 10000
        then some (pyTake 10000 tailContent ++ "...") else some tailContent) =
      some (pyTake 10000 tailContent ++ "...")
    rw [if_pos ⟨hne, by rw [hlen]; decide⟩]
  · show ((pyTake 10000 tailContent).data ++ "...".data).count 'b' = 0
    rw [List.count_append, htake, List.count_replicate]
    decide
  · rw [hdata, List.count_append, List.count_replicate, List.count_replicate]
    decide

/-- C9 (amended): the shaping threshold and slice are 10,000 characters:
content over 10,000 characters becomes its first 10,000 characters plus
an ellipsis (length exactly 10,003 — no tail is kept), and content of at
most 10,000 characters is passed through unchanged. -/
theorem shape_content_truncates_at_10000 (c : String) :
    (10000 < c.length →
      shape_content (some c) = some (pyTake 10000 c ++ "...") ∧
      (pyTake 10000 c ++ "...").length = 10003) ∧
    (c.length ≤ 10000 → shape_content (some c) = some c) := by
  constructor
  · intro h
    have hne : c ≠ "" := by
      intro he
      rw [he] at h
      exact absurd h (by decide)
    constructor
    · show (if c ≠ "" ∧ c.length > 10000
          then some (pyTake 10000 c ++ "...") else some c) = some (pyTake 10000 c ++ "...")
      rw [if_pos ⟨hne, h⟩]
    · show ((pyTake 10000 c).data ++ "...".data).length = 10003
      rw [List.length_append]
      have htk : (pyTake 10000 c).data.length = 10000 := by
        show (c.data.take 10000).length = 10000
        rw [List.length_take]
        exact Nat.min_eq_left (Nat.le_of_lt h)
      rw [htk]
      decide
  · intro h
    show (if c ≠ "" ∧ c.length > 10000
        then some (pyTake 10000 c ++ "...") else some c) = some c
    rw [if_neg]
    intro hcon
    exact absurd h (Nat.not_le_of_lt hcon.2)

/-- C9 witness: the amended theorem applied at the 12,000-char fixture and
at a short string. -/
theorem shape_content_truncates_witness :
    (shape_content (some tailContent) = some (pyTake 10000 tailContent ++ "...") ∧
      (pyTake 10000 tailContent ++ "...").length = 10003) ∧
    shape_content (some "abc") = some "abc" :=
  ⟨(shape_content_truncates_at_10000 tailContent).1
      (by
      rw [show tailContent.length = 12000 from by
        show tailContent.data.length = 12000
        rw [show tailContent.data = List.replicate 10000 'a' ++ List.replicate 2000 'b' from rfl,
          List.length_append, List.length_replicate, List.length_replicate]]
      decide),
   (shape_content_truncates_at_10000 "abc").2 (by decide)⟩

/-! ## C10: retry resets any existing bookmark -/

/-- C10: the retry route checks only that the bookmark exists — it fetches
`enrichment_status` but never branches on it — so any existing bookmark,
whatever its status (including `completed`), is reset to `pending` with
a null `enrichment_error` and re-enqueued; a missing bookmark yields 404. -/
theorem retry_resets_regardless_of_status (b : Bookmark) :
    retry_enrichment (some b) =
      .started { b with enrichment_status := "pending",
                        enrichment_error := Option.none } true ∧
    retry_enrichment Option.none = .notFound :=
  ⟨rfl, rfl⟩


theorem except_bind_ok {α β : Type} (a : α) (f : α → Except PyExc β) :
    (Except.ok a >>= f) = f a := rfl

theorem validateObj_ok_bounds (title : Option String) (kvs : List (String × PyVal))
    (r : EnrichedRecord) (h : validateObj title kvs = .ok r) : RecordBounded r := by
  unfold validateObj at h
  cases htags : (pyGetD kvs "auto_tags" (PyVal.list [])).pyIter with
  | error e => rw [htags] at h; exact Except.noConfusion h
  | ok tagItems =>
  rw [htags] at h
  simp only [except_bind_ok] at h
  cases hint : validate_enum (pyGet kvs "intent_type") intentTypes "reference" with
  | error e => rw [hint] at h; exact Except.noConfusion h
  | ok intent_type =>
  rw [hint] at h
  simp only [except_bind_ok] at h
  cases htech : validate_enum (pyGet kvs "technical_level") technicalLevels "general" with
  | error e => rw [htech] at h; exact Except.noConfusion h
  | ok technical_level =>
  rw [htech] at h
  simp only [except_bind_ok] at h
  cases hct : validate_enum (pyGet kvs "content_type") contentTypes "article" with
  | error e => rw [hct] at h; exact Except.noConfusion h
  | ok content_type =>
  rw [hct] at h
  simp only [except_bind_ok] at h
  cases hq : (pyGetD kvs "key_quotes" (PyVal.list [])).pyIter with
  | error e => rw [hq] at h; exact Except.noConfusion h
  | ok quoteItems =>
  rw [hq] at h
  simp only [except_bind_ok] at h
  have hr := (Except.ok.inj h).symm
  subst hr
  refine ⟨pyTake_length _ _, pyTake_length _ _, ?_, ?_, ?_, ?_, ?_, ?_, ?_⟩
  · exact List.length_take_le _ _
  · intro t ht
    have ht2 := List.mem_of_mem_take ht
    obtain ⟨x, _, rfl⟩ := List.mem_map.mp ht2
    exact tagNormalize_chars x
  · rcases validate_enum_ok_cases _ _ _ _ hint with hrfl | hmem
    · rw [hrfl]; show "reference" ∈ intentTypes; decide
    · exact hmem
  · rcases validate_enum_ok_cases _ _ _ _ htech with hrfl | hmem
    · rw [hrfl]; show "general" ∈ technicalLevels; decide
    · exact hmem
  · rcases validate_enum_ok_cases _ _ _ _ hct with hrfl | hmem
    · rw [hrfl]; show "article" ∈ contentTypes; decide
    · exact hmem
  · exact List.length_take_le _ _
  · intro q hq2
    have hq3 := List.mem_of_mem_take hq2
    obtain ⟨x, _, rfl⟩ := List.mem_map.mp hq3
    exact pyTake_length _ _

theorem validateObj_total (title : Option String) (kvs : List (String × PyVal))
    (h1 : enumSafe (pyGet kvs "intent_type") = true)
    (h2 : enumSafe (pyGet kvs "technical_level") = true)
    (h3 : enumSafe (pyGet kvs "content_type") = true)
    (h4 : (pyGetD kvs "auto_tags" (PyVal.list [])).iterOk = true)
    (h5 : (pyGetD kvs "key_quotes" (PyVal.list [])).iterOk = true) :
    ∃ r, validateObj title kvs = .ok r := by
  unfold validateObj
  unfold PyVal.iterOk at h4 h5
  obtain ⟨tagItems, htags⟩ : ∃ xs, (pyGetD kvs "auto_tags" (PyVal.list [])).pyIter = .ok xs := by
    cases hx : (pyGetD kvs "auto_tags" (PyVal.list [])).pyIter with
    | ok xs => exact ⟨xs, rfl⟩
    | error e => rw [hx] at h4; exact Bool.noConfusion h4
  obtain ⟨quoteItems, hqs⟩ : ∃ xs, (pyGetD kvs "key_quotes" (PyVal.list [])).pyIter = .ok xs := by
    cases hx : (pyGetD kvs "key_quotes" (PyVal.list [])).pyIter with
    | ok xs => exact ⟨xs, rfl⟩
    | error e => rw [hx] at h5; exact Bool.noConfusion h5
  obtain ⟨it, hit⟩ := validate_enum_safe_ok (pyGet kvs "intent_type") intentTypes "reference" h1
  obtain ⟨tl, htl⟩ := validate_enum_safe_ok (pyGet kvs "technical_level") technicalLevels "general" h2
  obtain ⟨ct, hct⟩ := validate_enum_safe_ok (pyGet kvs "content_type") contentTypes "article" h3
  rw [htags, hit, htl, hct, hqs]
  simp only [except_bind_ok]
  exact ⟨_, rfl⟩

theorem enrich_validate_ok_bounds (title : Option String) (parsed : ModelJson)
    (r : EnrichedRecord) (h : enrich_validate title parsed = .ok r) : RecordBounded r := by
  cases parsed with
  | decodeError => exact validateObj_ok_bounds _ _ _ h
  | value v =>
    cases v with
    | obj kvs => exact validateObj_ok_bounds _ _ _ h
    | none => exact Except.noConfusion h
    | bool b => exact Except.noConfusion h
    | int n => exact Except.noConfusion h
    | str s => exact Except.noConfusion h
    | list xs => exact Except.noConfusion h

theorem enrich_validate_total (title : Option String) (parsed : ModelJson)
    (h : wellShaped parsed = true) :
    ∃ r, enrich_validate title parsed = .ok r := by
  cases parsed with
  | decodeError => exact validateObj_total title (defaultResult title) rfl rfl rfl rfl rfl
  | value v =>
    cases v with
    | obj kvs =>
      unfold wellShaped at h
      repeat rw [Bool.and_eq_true] at h
      obtain ⟨⟨⟨⟨h1, h2⟩, h3⟩, h4⟩, h5⟩ := h
      exact validateObj_total title kvs h1 h2 h3 h4 h5
    | none => exact Bool.noConfusion h
    | bool b => exact Bool.noConfusion h
    | int n => exact Bool.noConfusion h
    | str s => exact Bool.noConfusion h
    | list xs => exact Bool.noConfusion h

/-- C3 (amended): for every model response that failed JSON decoding or
parsed to a JSON object whose enum fields are absent, falsy or strings
and whose `auto_tags`/`key_quotes` are iterable when present, validation
returns without raising a record with `clean_title` at most 60 chars,
`ai_summary` at most 500 chars (the code caps at 500, not the claimed
220), tags lowercased, space-to-hyphen normalized and capped at 5, enum
values inside their closed sets (out-of-set values map to `reference`,
`general`, `article`), and `key_quotes` capped at 3 entries of at most
300 chars each. -/
theorem synthesizer_validation_wellshaped (title : Option String) (parsed : ModelJson)
    (h : wellShaped parsed = true) :
    ∃ r, enrich_validate title parsed = .ok r ∧ RecordBounded r := by
  obtain ⟨r, hr⟩ := enrich_validate_total title parsed h
  exact ⟨r, hr, enrich_validate_ok_bounds title parsed r hr⟩

set_option maxRecDepth 10000 in
/-- C3 (counterexample): the claim as stated is false twice over: a model
response that is a valid non-object JSON value (here `[]`) raises
`AttributeError` at `result.get`, and a 300-character `ai_summary`
passes through at 300 chars, above the claimed 220-char cap (the code
truncates at 500). -/
theorem synthesizer_validation_counterexample :
    enrich_validate (some "T") (.value (.list [])) =
      .error ⟨"AttributeError", "object has no attribute get"⟩ ∧
    enrichOkSummaryLength (enrich_validate (some "T")
      (.value (.obj [("ai_summary", .str longSummary)]))) = 300 := ⟨rfl, rfl⟩

/-- C3 witness: the amended theorem applied to a concrete object response
with a falsy enum value and a string-valued `auto_tags`. -/
theorem synthesizer_validation_wellshaped_witness :
    wellShaped (.value (.obj [("intent_type", .int 0), ("auto_tags", .str "AB cd")])) = true ∧
    (∃ r, enrich_validate (some "T")
      (.value (.obj [("intent_type", .int 0), ("auto_tags", .str "AB cd")])) = .ok r ∧
      RecordBounded r) :=
  ⟨rfl, synthesizer_validation_wellshaped (some "T") _ rfl⟩

/-- C2 (amended): whenever the synthesizer call returns a validated
record, the completed write of the orchestrator stores `completed`
status with non-null `clean_title`, `ai_summary` and `auto_tags`, and
between 0 and 5 tags, each space-free and without ASCII uppercase; the
declined-enrichment import and pre-enriched creation paths do not
guarantee a non-null `ai_summary` (see the counterexample). -/
theorem completed_write_fields (title : Option String) (parsed : ModelJson)
    (b : Bookmark) (ex : Extracted) (r : EnrichedRecord)
    (h : enrich_validate title parsed = .ok r) :
    (successUpdate b ex r).enrichment_status = "completed" ∧
    (successUpdate b ex r).clean_title = some r.clean_title ∧
    (successUpdate b ex r).ai_summary = some r.ai_summary ∧
    ∃ tags, (successUpdate b ex r).auto_tags = some tags ∧ tags.length ≤ 5 ∧
      ∀ t ∈ tags, ∀ c ∈ t.data, c ≠ ' ' ∧ c.isUpper = false := by
  have hb := enrich_validate_ok_bounds title parsed r h
  exact ⟨rfl, rfl, rfl, r.auto_tags, rfl, hb.2.2.1, hb.2.2.2.1⟩

/-- C2 witness: the amended theorem applied to the record validated from
a decode-error response for a bookmark titled `T`. -/
theorem completed_write_fields_witness :
    (successUpdate { url := "u" } {} defaultValidated).enrichment_status = "completed" ∧
    (successUpdate { url := "u" } {} defaultValidated).clean_title = some defaultValidated.clean_title ∧
    (successUpdate { url := "u" } {} defaultValidated).ai_summary = some defaultValidated.ai_summary ∧
    ∃ tags, (successUpdate { url := "u" } {} defaultValidated).auto_tags = some tags ∧
      tags.length ≤ 5 ∧ ∀ t ∈ tags, ∀ c ∈ t.data, c ≠ ' ' ∧ c.isUpper = false :=
  completed_write_fields (some "T") .decodeError { url := "u" } {} defaultValidated rfl

/-- C2 (counterexample): a bulk import of one fresh candidate with
enrichment declined inserts a row whose `enrichment_status` is
`completed` and whose `ai_summary` column is null, refuting the claimed
non-null invariant; moreover a validated record can carry zero tags
(a decode-error response yields `auto_tags = []`), so the claimed
1-to-5 tag count fails even on the enrichment path. -/
theorem completed_rows_counterexample :
    importedStatusSummary (import_bookmarks (fun _ => true) []
      [{ url := some "https://ex.com/a", enrich := false }]) = [("completed", Option.none)] ∧
    enrich_validate (some "T") .decodeError = .ok defaultValidated ∧
    defaultValidated.auto_tags = [] ∧
    (successUpdate { url := "u" } {} defaultValidated).auto_tags = some [] :=
  ⟨rfl, rfl, rfl, rfl⟩


theorem handler_preserves_inv (bk : Option Bookmark) (hj hi : Bool)
    (iw : List (String × Option String)) (e : PyExc) :
    errInvB (enrichExceptHandler bk hj hi iw e).bookmark = true := by
  cases bk with
  | none => rfl
  | some b => simp [enrichExceptHandler, errInvB, pyTake_length]

/-- C4: every bookmark row that the orchestrator leaves in status
`failed` carries a non-null `enrichment_error` of at most 500 characters
(the invariant is preserved from any initial row satisfying it, across
every oracle outcome; the outer handler catches everything, so the
embedded run is a total function and nothing propagates past the job
boundary), and a synthesis exception on the scraping path transitions
exactly to `failed` with the error detail truncated to 500 characters. -/
theorem failed_rows_error_bounded (bk0 : Option Bookmark) (hasJob hasItem : Bool)
    (o : EnrichOracle) (hinv : errInvB bk0 = true) :
    errInvB (enrich_bookmark_job bk0 hasJob hasItem o).bookmark = true ∧
    (∀ b, bk0 = some b → (hasJob && o.cancelAtStart) = false →
      (hasJob && o.cancelBeforeLLM) = false →
      optTruthy b.user_description = false →
      ∀ e, analyze_link o.extractOutcome o.modelOutcome b.url = .error e →
        (enrich_bookmark_job bk0 hasJob hasItem o).bookmark =
          some { b with enrichment_status := "failed",
                        enrichment_error := some (pyTake 500 e.format) }) := by
  constructor
  · unfold enrich_bookmark_job
    by_cases h1 : (hasJob && o.cancelAtStart) = true
    · rw [if_pos h1]
      exact hinv
    · rw [if_neg h1]
      cases bk0 with
      | none => exact handler_preserves_inv _ _ _ _ _
      | some b =>
        dsimp only [Option.map]
        by_cases h2 : optTruthy b.user_description = true
        · rw [if_pos h2]
          exact handler_preserves_inv _ _ _ _ _
        · rw [if_neg h2]
          by_cases h3 : (hasJob && o.cancelBeforeLLM) = true
          · rw [if_pos h3]
            simp [errInvB]
            decide
          · rw [if_neg h3]
            exact handler_preserves_inv _ _ _ _ _
  · intro b hbk hc1 hc2 hud e he
    subst hbk
    unfold enrich_bookmark_job
    rw [if_neg (by rw [hc1]; exact Bool.false_ne_true)]
    dsimp only [Option.map]
    rw [if_neg (by rw [hud]; exact Bool.false_ne_true)]
    rw [if_neg (by rw [hc2]; exact Bool.false_ne_true)]
    rw [he]
    rfl

/-- C4 witness: the theorem applied to a concrete pending bookmark with
no import job and the default oracle, on which all external calls fail. -/
theorem failed_rows_error_bounded_witness :
    errInvB (some { url := "u" }) = true ∧
    errInvB (enrich_bookmark_job (some { url := "u" }) false false {}).bookmark = true :=
  ⟨rfl, (failed_rows_error_bounded (some { url := "u" }) false false {} rfl).1⟩


theorem optTruthy_none : optTruthy Option.none = false := rfl

theorem mergeField_two_val (ic : Bool) (a b : Option String)
    (h : ¬(optTruthy a = true ∧ optTruthy b = true)) :
    mergeField ic (mergeField ic Option.none a) b =
      (if optTruthy a = true then a else if optTruthy b = true then b else Option.none) := by
  by_cases ha : optTruthy a = true <;> by_cases hb : optTruthy b = true
  · exact absurd ⟨ha, hb⟩ h
  · simp [mergeField, ha, hb, optTruthy_none]
  · simp [mergeField, ha, hb, optTruthy_none]
  · simp [mergeField, ha, hb, optTruthy_none]

theorem mergeField_two_comm (ic : Bool) (a b : Option String)
    (h : ¬(optTruthy a = true ∧ optTruthy b = true)) :
    mergeField ic (mergeField ic Option.none a) b =
    mergeField ic (mergeField ic Option.none b) a := by
  rw [mergeField_two_val ic a b h, mergeField_two_val ic b a (fun hh => h ⟨hh.2, hh.1⟩)]
  by_cases ha : optTruthy a = true <;> by_cases hb : optTruthy b = true <;> simp [ha, hb]
  exact absurd ⟨ha, hb⟩ h

theorem extract_content_proj (url : String) (rs : List StrategyResult) :
    (extract url rs).content =
      (rs.foldl mergeStep { domain := some (url_domain url) }).content := by
  unfold extract
  dsimp only
  split <;> rfl

theorem extract_title_proj (url : String) (rs : List StrategyResult) :
    (extract url rs).title =
      (rs.foldl mergeStep { domain := some (url_domain url) }).title := by
  unfold extract
  dsimp only
  split <;> rfl

/-- C8 (amended): the merge is completion-order dependent in general:
each non-content field keeps the value of the strategy that completes
first when both are non-empty, and `content` keeps the last-completed
non-empty value. When the two strategies do not both produce a non-empty
value for any field, the merged extraction result is independent of
completion order, and `content`/`title` equal the unique non-empty value
when one exists. -/
theorem extract_merge_order_free (url : String) (r1 r2 : StrategyResult)
    (ht : ¬(optTruthy r1.title = true ∧ optTruthy r2.title = true))
    (hd : ¬(optTruthy r1.description = true ∧ optTruthy r2.description = true))
    (hc : ¬(optTruthy r1.content = true ∧ optTruthy r2.content = true))
    (hf : ¬(optTruthy r1.favicon_url = true ∧ optTruthy r2.favicon_url = true))
    (hth : ¬(optTruthy r1.thumbnail_url = true ∧ optTruthy r2.thumbnail_url = true)) :
    extract url [r1, r2] = extract url [r2, r1] ∧
    (extract url [r1, r2]).content =
      (if optTruthy r1.content = true then r1.content
       else if optTruthy r2.content = true then r2.content else Option.none) ∧
    (extract url [r1, r2]).title =
      (if optTruthy r1.title = true then r1.title
       else if optTruthy r2.title = true then r2.title else Option.none) := by
  have hm : List.foldl mergeStep { domain := some (url_domain url) } [r1, r2] =
      List.foldl mergeStep { domain := some (url_domain url) } [r2, r1] := by
    show mergeStep (mergeStep { domain := some (url_domain url) } r1) r2 =
      mergeStep (mergeStep { domain := some (url_domain url) } r2) r1
    unfold mergeStep
    simp only [Extracted.mk.injEq]
    refine ⟨?_, ?_, ?_, ?_, ?_, trivial⟩
    · exact mergeField_two_comm false r1.title r2.title ht
    · exact mergeField_two_comm false r1.description r2.description hd
    · exact mergeField_two_comm true r1.content r2.content hc
    · exact mergeField_two_comm false r1.favicon_url r2.favicon_url hf
    · exact mergeField_two_comm false r1.thumbnail_url r2.thumbnail_url hth
  refine ⟨?_, ?_, ?_⟩
  · unfold extract
    dsimp only
    rw [hm]
  · rw [extract_content_proj]
    show mergeField true (mergeField true Option.none r1.content) r2.content = _
    exact mergeField_two_val true r1.content r2.content hc
  · rw [extract_title_proj]
    show mergeField false (mergeField false Option.none r1.title) r2.title = _
    exact mergeField_two_val false r1.title r2.title ht

/-- C8 (counterexample): with the remote-reader strategy supplying title
`A` (respectively content `CA`) and the local strategy supplying `B`
(`CB`), the merged title is whichever strategy completed first and the
merged content is whichever completed last: the result depends on finish
order, and the remote value does not win when the local strategy
finishes first. The lists are in completion order. -/
theorem merge_order_dependent_counterexample :
    (extract "https://ex.com/a" [{ title := some "B" }, { title := some "A" }]).title = some "B" ∧
    (extract "https://ex.com/a" [{ title := some "A" }, { title := some "B" }]).title = some "A" ∧
    (extract "https://ex.com/a" [{ content := some "CB" }, { content := some "CA" }]).content = some "CA" ∧
    (extract "https://ex.com/a" [{ content := some "CA" }, { content := some "CB" }]).content = some "CB" :=
  ⟨rfl, rfl, rfl, rfl⟩

/-- C8 witness: the amended theorem applied to one strategy returning
only a title and the other returning nothing. -/
theorem extract_merge_order_free_witness :
    extract "https://ex.com/a" [{ title := some "A" }, {}] =
      extract "https://ex.com/a" [{}, { title := some "A" }] ∧
    (extract "https://ex.com/a" [{ title := some "A" }, ({} : StrategyResult)]).content = Option.none ∧
    (extract "https://ex.com/a" [{ title := some "A" }, ({} : StrategyResult)]).title = some "A" := by
  have h := extract_merge_order_free "https://ex.com/a" { title := some "A" } {}
    (by decide) (by decide) (by decide) (by decide) (by decide)
  exact ⟨h.1, by rw [h.2.1]; rfl, by rw [h.2.2]; rfl⟩


end Markly
